import Mathlib

/-!
# Server-sent-events log streaming: registry, stream session, broadcast

A shallow embedding of `main.go`.  The process-wide `clients` map is an
association list with unique keys that is passed explicitly; what other
handlers do to it while a session is streaming is a list of operations.  The
connection and the log reader are environments (oracles) that give the outcome
of each `Fprintf` and each `ReadString` call; every handler returns the events
it performs, in program order.
-/

namespace SSE

/-! ## Constants -/

/-- The constant `logIdleTimeout` of `main.go`. -/
def logIdleTimeout : Nat := 60

/-- The status code `http.StatusOK`. -/
def StatusOK : Nat := 200

/-- The status code `http.StatusBadRequest`. -/
def StatusBadRequest : Nat := 400

/-- The status code `http.StatusInternalServerError`. -/
def StatusInternalServerError : Nat := 500

/-! ## Client registry -/

/-- A connection handle (`*gin.Context`), identified by a number. -/
abbrev Conn := Nat

/-- The map `clients : map[string]*gin.Context`: finitely many entries, at most
one per key. -/
abbrev Registry := AList (fun _ : String => Conn)

/-- The function `addClient`: `clients[id] = c`. -/
def addClient (id : String) (c : Conn) (clients : Registry) : Registry :=
  clients.insert id c

/-- The function `removeClient`: `delete(clients, id)`. -/
def removeClient (id : String) (clients : Registry) : Registry :=
  clients.erase id

/-- What a handler sent with `c.String(code, body)`; `none` when the handler
returned without setting a status or a body. -/
abbrev Response := Option (Nat × String)

/-- The handler `handleDisconnect`; `header` is `c.GetHeader("X-Client-ID")`,
which is the empty string when the header is missing. -/
def handleDisconnect (header : String) (clients : Registry) : Response × Registry :=
  if header = "" then
    (some (StatusBadRequest, "Missing client ID"), clients)
  else
    (some (StatusOK, "Disconnected"), removeClient header clients)

/-- The handler `handlePing`. -/
def handlePing (header : String) : Response :=
  if header ≠ "" then some (StatusOK, "Pong")
  else some (StatusBadRequest, "Missing client ID")

/-! ## Connection and reader environments -/

/-- The error of a failed write, by the class `sendLogLine` distinguishes:
`isEPIPE(err)`, `errors.Is(err, context.Canceled)`, anything else. -/
inductive WriteErr where
  | epipe
  | canceled
  | other
  deriving DecidableEq, Repr

/-- The error of `reader.ReadString`: `io.EOF`, whose text is `"EOF"`, or
another read error. -/
inductive ReadErr where
  | eof
  | other
  deriving DecidableEq, Repr

/-- What the session does to its connection and its environment, in program
order. -/
inductive Event where
  | pull
  | sleep (ms : Nat)
  | write (frame : String) (err : Option WriteErr)
  | flush
  | log (msg : String)
  deriving DecidableEq, Repr

/-- The result `(line, err)` of one `reader.ReadString('\n')` call. -/
abbrev Pull := String × Option ReadErr

/-- The frame that `sendLogLine` formats: `"data: %s\n\n"`. -/
def dataFrame (line : String) : String := "data: " ++ line ++ "\n\n"

/-- The frame that `checkForInactivity` writes. -/
def inactivityFrame : String :=
  "event: inactivity\ndata: closing connection due to inactivity.\n\n"

/-- The frame that `notifyClientsOfTermination` writes. -/
def terminationFrame : String :=
  "event: termination\ndata: Server is shutting down.\n\n"

/-- The text `%v` prints for a write error. -/
def WriteErr.text : WriteErr → String
  | .epipe => "write: broken pipe"
  | .canceled => "context canceled"
  | .other => "write error"

/-! ## Stream session -/

/-- The function `strings.TrimRight(line, "\n")`: every trailing newline is
removed. -/
def TrimRight (line : String) : String :=
  ⟨line.data.rdropWhile (fun ch => ch == '\n')⟩

/-- The function `readLogLine`: the line without its trailing newlines, and the
error of `ReadString` as it is. -/
def readLogLine (p : Pull) : String × Option ReadErr :=
  (TrimRight p.1, p.2)

/-- The function `checkForInactivity`: whether the loop breaks, and the events
performed; `wr` is the outcome of the `Fprintf` it may make. -/
def checkForInactivity (wr : Option WriteErr) (clientID : String) (eofCount : Nat) :
    Bool × List Event :=
  if eofCount = logIdleTimeout then
    match wr with
    | some e =>
      (true, [.write inactivityFrame (some e),
              .log ("unable to notify client " ++ clientID ++ ": " ++ e.text)])
    | none => (true, [.write inactivityFrame none, .flush])
  else
    (false, [])

/-- The function `sendLogLine`: whether the line was sent, and the events
performed; `wr` is the outcome of its `Fprintf`. -/
def sendLogLine (wr : Option WriteErr) (line clientID : String) : Bool × List Event :=
  match wr with
  | some .epipe =>
    (false, [.write (dataFrame line) (some .epipe),
             .log ("client connection closed: " ++ WriteErr.text .epipe)])
  | some .canceled =>
    (false, [.write (dataFrame line) (some .canceled),
             .log ("Request canceled: " ++ clientID ++ "\n")])
  | some .other =>
    (false, [.write (dataFrame line) (some .other),
             .log ("Error sending logs to client " ++ clientID ++ ": "
               ++ WriteErr.text .other ++ "\n")])
  | none => (true, [.write (dataFrame line) none, .flush])

/-- The state of the loop of `handleLogStreaming`: the local `eofCount`, how
many `ReadString` and `Fprintf` calls were made, the events so far, and whether
the function has returned. -/
structure Loop where
  eofCount : Nat
  reads : Nat
  writes : Nat
  trace : List Event
  ended : Bool
  deriving DecidableEq, Repr

/-- One iteration of the `for` loop of `handleLogStreaming`; `rd i` is the
result of the `i`-th `ReadString` call and `wr j` the outcome of the `j`-th
`Fprintf` call of the session.  A loop that has ended stays as it is. -/
def loopBody (rd : Nat → Pull) (wr : Nat → Option WriteErr) (clientID : String)
    (s : Loop) : Loop :=
  if s.ended then s
  else
    let chk := checkForInactivity (wr s.writes) clientID s.eofCount
    if chk.1 then
      { s with writes := s.writes + 1, trace := s.trace ++ chk.2, ended := true }
    else
      let r := readLogLine (rd s.reads)
      match r.2 with
      | some .eof =>
        { s with eofCount := s.eofCount + 1, reads := s.reads + 1,
                 trace := s.trace ++ [.pull, .sleep 400] }
      | some .other =>
        { s with reads := s.reads + 1,
                 trace := s.trace ++ [.pull, .log "error reading file for streaming logs"] }
      | none =>
        let snd := sendLogLine (wr s.writes) r.1 clientID
        if snd.1 then
          { s with eofCount := 0, reads := s.reads + 1, writes := s.writes + 1,
                   trace := s.trace ++ .pull :: snd.2 }
        else
          { s with reads := s.reads + 1, writes := s.writes + 1,
                   trace := s.trace ++ .pull :: snd.2, ended := true }

/-- The loop state on entry of `handleLogStreaming`: `eofCount := 0`. -/
def Loop.init : Loop :=
  { eofCount := 0, reads := 0, writes := 0, trace := [], ended := false }

/-- The function `handleLogStreaming`, run for at most `fuel` iterations of its
loop. -/
def handleLogStreaming (rd : Nat → Pull) (wr : Nat → Option WriteErr) (clientID : String)
    (fuel : Nat) : Loop :=
  (loopBody rd wr clientID)^[fuel] Loop.init

/-! ## Log reader -/

/-- The method `bufio.Reader.ReadString('\n')` on the bytes of the file that
the reader has not consumed yet: the bytes up to and including the first
newline, or, when there is no newline, all of them together with `io.EOF`.  The
second component is what stays unconsumed. -/
def ReadString (unread : String) : Pull × String :=
  match unread.data.span (fun ch => ch != '\n') with
  | (pre, _ :: rest) => ((⟨pre ++ ['\n']⟩, none), ⟨rest⟩)
  | (pre, []) => ((⟨pre⟩, some .eof), "")

/-- A reader that follows a growing file: `appends 0` is the content of the file
when it is opened and `appends (i + 1)` the bytes that become readable between
pull `i` and pull `i + 1`.  The value at `i` is the result of pull `i` and the
bytes left unconsumed after it. -/
def tailFile (appends : Nat → String) : Nat → Pull × String
  | 0 => ReadString (appends 0)
  | i + 1 => ReadString ((tailFile appends i).2 ++ appends (i + 1))

/-- The pulls that a session over a growing file sees. -/
def filePulls (appends : Nat → String) (i : Nat) : Pull :=
  (tailFile appends i).1

/-! ## The handler `streamLogs` -/

/-- The constant `deploymentDir`. -/
def deploymentDir : String := "./deployment-logs"

/-- The operating system as `streamLogs` uses it: `filepath.Join`, and `os.Open`
together with the reads of the opened file (`none` when the file cannot be
opened, otherwise the results of the successive `ReadString` calls). -/
structure OS where
  Join : String → String → String
  Open : String → Option (Nat → Pull)

/-- The function `setupResponseHeaders`: the headers it sets, in order. -/
def setupResponseHeaders (clientID : String) : List (String × String) :=
  [("Content-Type", "text/event-stream"), ("Cache-Control", "no-cache"),
   ("Connection", "keep-alive"), ("X-Client-ID", clientID)]

/-- An operation of another handler on the shared map `clients`: the
`addClient` or the deferred `removeClient` of another session, or a
`POST /disconnect` request with the given `X-Client-ID` header. -/
inductive RegistryOp where
  | add (id : String) (c : Conn)
  | remove (id : String)
  | disconnect (header : String)
  deriving DecidableEq, Repr

/-- The client id an operation is about. -/
def RegistryOp.key : RegistryOp → String
  | .add id _ => id
  | .remove id => id
  | .disconnect header => header

/-- The map after an operation of another handler. -/
def RegistryOp.apply : RegistryOp → Registry → Registry
  | .add id c, clients => addClient id c clients
  | .remove id, clients => removeClient id clients
  | .disconnect header, clients => (handleDisconnect header clients).2

/-- The map after a sequence of operations of other handlers, in order; each
operation holds the mutex for itself. -/
def applyOps (ops : List RegistryOp) (clients : Registry) : Registry :=
  ops.foldl (fun r op => op.apply r) clients

/-- What one call of `streamLogs` did: the status and body the handler set
(`none`: it set none), the headers it set, the map right after its `addClient`
(`none`: it was not called), the map when the handler returns (or after `fuel`
iterations when it has not), the events of the session and whether the handler
has returned. -/
structure StreamRun where
  response : Response
  headers : List (String × String)
  registered : Option Registry
  clients : Registry
  trace : List Event
  returned : Bool

/-- The handler `streamLogs`; `clientID` is the value of `uuid.New().String()` and
`c` the handle of the request.  The map `clients` is shared: `others` are the
operations that other handlers perform on it after the `addClient` of this call
and before its deferred `removeClient`, which runs when `handleLogStreaming`
returns (when it has not returned after `fuel` iterations: the operations
performed up to then).  `handleLogStreaming` itself never reads the map. -/
def streamLogs (os : OS) (wr : Nat → Option WriteErr) (deploymentID clientID : String)
    (c : Conn) (clients : Registry) (others : List RegistryOp) (fuel : Nat) : StreamRun :=
  let filePath := os.Join deploymentDir (deploymentID ++ ".txt")
  match os.Open filePath with
  | none =>
    { response := none, headers := [], registered := none, clients := clients,
      trace := [.log ("error opening the file for streaming logs, deployment-id: "
        ++ deploymentID)],
      returned := true }
  | some rd =>
    let registered := addClient clientID c clients
    let run := handleLogStreaming rd wr clientID fuel
    let shared := applyOps others registered
    { response := none, headers := setupResponseHeaders clientID,
      registered := some registered,
      clients := if run.ended then removeClient clientID shared else shared,
      trace := run.trace,
      returned := run.ended }

/-- The status that gin sends for a handler that set none: its response writer
starts with `defaultStatus = http.StatusOK`. -/
def sentStatus (r : Response) : Nat :=
  match r with
  | some (code, _) => code
  | none => StatusOK

/-! ## Broadcast -/

/-- An event of the broadcast, with the client id and the handle it is about. -/
abbrev ClientEvent := String × Conn × Event

/-- The body of the `range clients` loop of `notifyClientsOfTermination` for the
entry `(id, c)`; `wr` is the outcome of the `Fprintf` to that client. -/
def notifyClient (wr : Option WriteErr) (id : String) (c : Conn) : List ClientEvent :=
  match wr with
  | some e =>
    [(id, c, .write terminationFrame (some e)),
     (id, c, .log ("unable to notify client " ++ id ++ ": " ++ e.text))]
  | none => [(id, c, .write terminationFrame none), (id, c, .flush)]

/-- The function `notifyClientsOfTermination`: the registry it leaves and the
events it performs; `wr id` is the outcome of the write to client `id`.  The
entries are visited in the order of the list, which stands for the order of the
`range` over the map. -/
def notifyClientsOfTermination (wr : String → Option WriteErr) (clients : Registry) :
    Registry × List ClientEvent :=
  (clients, clients.entries.flatMap fun e => notifyClient (wr e.1) e.1 e.2)

/-! ## Projections of a trace -/

/-- The frames of the write events of a trace, in order. -/
def writtenFrames (trace : List Event) : List String :=
  trace.filterMap fun e =>
    match e with
    | .write frame _ => some frame
    | _ => none

/-- The number of `ReadString` calls of a trace. -/
def pullCount (trace : List Event) : Nat :=
  trace.count .pull

/-- An event without what depends on the class of a write error: a log entry
is dropped and a failed write keeps only that it failed. -/
def Event.unclassified : Event → Option Event
  | .log _ => none
  | .write frame (some _) => some (.write frame (some .other))
  | e => some e

/-- The events of a broadcast that are about the client `id`. -/
def eventsOf (id : String) (evs : List ClientEvent) : List ClientEvent :=
  evs.filter fun e => e.1 == id

/-- The function `filepath.Join` on a directory and a file name without
anything to clean. -/
def joinPath (dir name : String) : String := dir ++ "/" ++ name

/-- An operating system in which no file can be opened; `join` is its
`filepath.Join`. -/
def noFiles (join : String → String → String) : OS :=
  { Join := join, Open := fun _ => none }

/-- An operating system in which every file can be opened and reads as `rd`. -/
def oneFile (rd : Nat → Pull) : OS :=
  { Join := joinPath, Open := fun _ => some rd }

/-- The events of `i` polls in a row that find no new data: a pull and a
sleep of 400 ms each. -/
def idleWait : Nat → List Event
  | 0 => []
  | i + 1 => idleWait i ++ [.pull, .sleep 400]

/-- The events of the last iteration of a session that ends by inactivity: the
write of the inactivity frame with outcome `w`, then a flush when it succeeded
and a log entry when it failed. -/
def idleClose (w : Option WriteErr) (clientID : String) : List Event :=
  match w with
  | some e =>
    [.write inactivityFrame (some e),
     .log ("unable to notify client " ++ clientID ++ ": " ++ e.text)]
  | none => [.write inactivityFrame none, .flush]

/-- A log that is empty for five pulls, then has one line, then stays as it
is. -/
def idleThenLine (i : Nat) : Pull :=
  if i = 5 then ("line\n", none) else ("", some .eof)

/-- A log whose line `abc` becomes readable in two parts: `ab` is there when the
file is opened, `c` and the newline before the second pull, nothing after. -/
def cutAppends : Nat → String
  | 0 => "ab"
  | 1 => "c\n"
  | _ => ""

/-- A text made of whole lines: it is empty or its last byte is a newline. -/
def WholeLines (text : String) : Prop :=
  ∀ ch, text.data.getLast? = some ch → ch = '\n'

/-- The text of a list of lines, each followed by a newline. -/
def unlines : List String → String
  | [] => ""
  | line :: rest => line ++ "\n" ++ unlines rest

/-- The bytes that have become readable up to and including pull `r - 1`. -/
def appended (appends : Nat → String) : Nat → String
  | 0 => ""
  | r + 1 => appended appends r ++ appends r

/-- The bytes that are readable and not consumed after `r` pulls. -/
def unreadAfter (appends : Nat → String) : Nat → String
  | 0 => ""
  | r + 1 => (tailFile appends r).2

/-- A log of two lines that are there when the file is opened. -/
def twoLines : Nat → String
  | 0 => "a\nb\n"
  | _ => ""

end SSE

namespace SSE

/-! ## Registry lemmas -/

theorem removeClient_lookup_self (id : String) (clients : Registry) :
    (removeClient id clients).lookup id = none :=
  AList.lookup_erase id clients

theorem removeClient_lookup_ne {id k : String} (clients : Registry) (h : k ≠ id) :
    (removeClient id clients).lookup k = clients.lookup k :=
  AList.lookup_erase_ne h

theorem removeClient_of_not_mem {id : String} {clients : Registry}
    (h : clients.lookup id = none) : removeClient id clients = clients := by
  apply AList.ext
  have hk : id ∉ clients.entries.keys := by
    have := AList.lookup_eq_none.mp h
    simpa [AList.mem_keys, AList.keys] using this
  simpa [removeClient, AList.erase] using List.kerase_of_not_mem_keys hk

theorem removeClient_idem (id : String) (clients : Registry) :
    removeClient id (removeClient id clients) = removeClient id clients :=
  removeClient_of_not_mem (removeClient_lookup_self id clients)

theorem addClient_lookup_self (id : String) (c : Conn) (clients : Registry) :
    (addClient id c clients).lookup id = some c :=
  AList.lookup_insert clients

theorem addClient_lookup_ne {id k : String} (c : Conn) (clients : Registry) (h : k ≠ id) :
    (addClient id c clients).lookup k = clients.lookup k :=
  AList.lookup_insert_ne h

/-! ## Disconnect -/

/-- Claim C8: with an empty `X-Client-ID` header `handleDisconnect` answers 400
and leaves the registry as it is; with a non-empty one it answers 200
"Disconnected" and the registry afterwards is the registry before without that
id: the id is absent and every other id maps to what it mapped to. -/
theorem handleDisconnect_status (clients : Registry) (id : String) :
    handleDisconnect "" clients = (some (400, "Missing client ID"), clients) ∧
    (id ≠ "" →
      (handleDisconnect id clients).1 = some (200, "Disconnected") ∧
      (handleDisconnect id clients).2 = clients.erase id ∧
      (handleDisconnect id clients).2.lookup id = none ∧
      ∀ k, k ≠ id → (handleDisconnect id clients).2.lookup k = clients.lookup k) := by
  refine ⟨rfl, fun h => ?_⟩
  simp only [handleDisconnect, if_neg h]
  exact ⟨rfl, rfl, removeClient_lookup_self id clients,
    fun k hk => removeClient_lookup_ne clients hk⟩

theorem handleDisconnect_status_witness :
    handleDisconnect "" (addClient "u1" 7 ∅) = (some (400, "Missing client ID"), addClient "u1" 7 ∅) ∧
    (handleDisconnect "u1" (addClient "u1" 7 ∅)).1 = some (200, "Disconnected") ∧
    (handleDisconnect "u1" (addClient "u1" 7 ∅)).2 = (addClient "u1" 7 ∅).erase "u1" ∧
    (handleDisconnect "u1" (addClient "u1" 7 ∅)).2.lookup "u1" = none :=
  ⟨(handleDisconnect_status (addClient "u1" 7 ∅) "u1").1,
   ((handleDisconnect_status (addClient "u1" 7 ∅) "u1").2 (by decide)).1,
   ((handleDisconnect_status (addClient "u1" 7 ∅) "u1").2 (by decide)).2.1,
   ((handleDisconnect_status (addClient "u1" 7 ∅) "u1").2 (by decide)).2.2.1⟩

/-- Claim C6: for a non-empty id, disconnecting twice leaves the same registry
and gives the same response as disconnecting once; disconnecting an id that is
not registered leaves the registry as it is and answers 200; in both cases
every other id maps to what it mapped to. -/
theorem handleDisconnect_idempotent (clients : Registry) (id : String) (h : id ≠ "") :
    handleDisconnect id (handleDisconnect id clients).2 = handleDisconnect id clients ∧
    (clients.lookup id = none →
      handleDisconnect id clients = (some (200, "Disconnected"), clients)) ∧
    (∀ k, k ≠ id →
      (handleDisconnect id clients).2.lookup k = clients.lookup k ∧
      (handleDisconnect id (handleDisconnect id clients).2).2.lookup k = clients.lookup k) := by
  simp only [handleDisconnect, if_neg h]
  refine ⟨?_, fun hn => ?_, fun k hk => ⟨removeClient_lookup_ne clients hk, ?_⟩⟩
  · rw [removeClient_idem]
  · rw [removeClient_of_not_mem hn]; rfl
  · rw [removeClient_idem]; exact removeClient_lookup_ne clients hk

theorem handleDisconnect_idempotent_witness :
    handleDisconnect "u1" (handleDisconnect "u1" (addClient "u2" 3 (addClient "u1" 7 ∅))).2
      = handleDisconnect "u1" (addClient "u2" 3 (addClient "u1" 7 ∅)) ∧
    (handleDisconnect "u1" (addClient "u2" 3 (addClient "u1" 7 ∅))).2.lookup "u2" = some 3 :=
  ⟨(handleDisconnect_idempotent (addClient "u2" 3 (addClient "u1" 7 ∅)) "u1" (by decide)).1,
   by decide⟩

/-- Claim C9, refuted: the id `u1` is registered in one registry and not in the
other, and `handleDisconnect` gives the same outcome in both. -/
theorem handleDisconnect_found_counterexample :
    (addClient "u1" 7 ∅).lookup "u1" = some 7 ∧
    (∅ : Registry).lookup "u1" = none ∧
    ¬ ((handleDisconnect "u1" (addClient "u1" 7 ∅)).1 ≠ (handleDisconnect "u1" ∅).1) := by
  decide

/-- Claim C9, amended: for a non-empty id the outcome of `handleDisconnect` is
200 "Disconnected" in every registry, whether the id is registered or not; the
one outcome that differs is 400 "Missing client ID" for an empty id. -/
theorem handleDisconnect_outcome_independent (clients clients' : Registry) (id : String)
    (h : id ≠ "") :
    (handleDisconnect id clients).1 = some (200, "Disconnected") ∧
    (handleDisconnect id clients).1 = (handleDisconnect id clients').1 ∧
    (handleDisconnect "" clients).1 = some (400, "Missing client ID") ∧
    (handleDisconnect id clients).1 ≠ (handleDisconnect "" clients).1 := by
  have e1 : ∀ r : Registry, (handleDisconnect id r).1 = some (200, "Disconnected") := by
    intro r
    simp only [handleDisconnect, if_neg h]
    rfl
  have e2 : (handleDisconnect "" clients).1 = some (400, "Missing client ID") := rfl
  refine ⟨e1 clients, (e1 clients).trans (e1 clients').symm, e2, ?_⟩
  rw [e1, e2]
  decide

theorem handleDisconnect_outcome_independent_witness :
    (handleDisconnect "u1" (addClient "u1" 7 ∅)).1 = some (200, "Disconnected") ∧
    (handleDisconnect "u1" (addClient "u1" 7 ∅)).1 = (handleDisconnect "u1" ∅).1 :=
  ⟨(handleDisconnect_outcome_independent (addClient "u1" 7 ∅) ∅ "u1" (by decide)).1,
   (handleDisconnect_outcome_independent (addClient "u1" 7 ∅) ∅ "u1" (by decide)).2.1⟩

/-! ## Broadcast -/

theorem eventsOf_notifyClient_self (w : Option WriteErr) (id : String) (c : Conn) :
    eventsOf id (notifyClient w id c) = notifyClient w id c := by
  cases w <;> simp [eventsOf, notifyClient]

theorem eventsOf_notifyClient_ne (w : Option WriteErr) {id k : String} (c : Conn)
    (h : k ≠ id) : eventsOf id (notifyClient w k c) = [] := by
  cases w <;> simp [eventsOf, notifyClient, h]

theorem eventsOf_flatMap (wr : String → Option WriteErr) (id : String) :
    ∀ l : List (Sigma fun _ : String => Conn), l.NodupKeys →
      eventsOf id (l.flatMap fun e => notifyClient (wr e.1) e.1 e.2) =
        match l.dlookup id with
        | none => []
        | some c => notifyClient (wr id) id c
  | [], _ => rfl
  | ⟨k, c⟩ :: t, hnd => by
    have ht := eventsOf_flatMap wr id t (List.nodupKeys_cons.mp hnd).2
    have hk : k ∉ t.keys := (List.nodupKeys_cons.mp hnd).1
    have happ : eventsOf id ((⟨k, c⟩ :: t).flatMap fun e => notifyClient (wr e.1) e.1 e.2) =
        eventsOf id (notifyClient (wr k) k c) ++
          eventsOf id (t.flatMap fun e => notifyClient (wr e.1) e.1 e.2) := by
      simp [eventsOf, List.flatMap_cons]
    rw [happ, ht]
    by_cases hid : k = id
    · subst hid
      rw [eventsOf_notifyClient_self, List.dlookup_cons_eq,
        List.dlookup_eq_none.mpr hk]
      simp
    · rw [eventsOf_notifyClient_ne _ _ hid, List.dlookup_cons_ne _ _ (Ne.symm hid)]
      simp

theorem notifyClientsOfTermination_events (wr : String → Option WriteErr)
    (clients : Registry) (id : String) :
    (notifyClientsOfTermination wr clients).1 = clients ∧
    (clients.lookup id = none →
      eventsOf id (notifyClientsOfTermination wr clients).2 = []) ∧
    (∀ c, clients.lookup id = some c → wr id = none →
      eventsOf id (notifyClientsOfTermination wr clients).2 =
        [(id, c, .write terminationFrame none), (id, c, .flush)]) ∧
    (∀ c e, clients.lookup id = some c → wr id = some e →
      eventsOf id (notifyClientsOfTermination wr clients).2 =
        [(id, c, .write terminationFrame (some e)),
         (id, c, .log ("unable to notify client " ++ id ++ ": " ++ e.text))]) ∧
    writtenFrames ((notifyClientsOfTermination wr clients).2.map fun e => e.2.2) =
      List.replicate clients.entries.length terminationFrame := by
  have key := eventsOf_flatMap wr id clients.entries clients.nodupKeys
  refine ⟨rfl, fun h => ?_, fun c h hw => ?_, fun c e h hw => ?_, ?_⟩
  · have h' : clients.entries.dlookup id = none := h
    simpa [notifyClientsOfTermination, h'] using key
  · have h' : clients.entries.dlookup id = some c := h
    simpa [notifyClientsOfTermination, h', hw, notifyClient] using key
  · have h' : clients.entries.dlookup id = some c := h
    simpa [notifyClientsOfTermination, h', hw, notifyClient] using key
  · simp only [notifyClientsOfTermination]
    induction clients.entries with
    | nil => rfl
    | cons a t ih =>
      have hsplit : writtenFrames (((a :: t).flatMap fun e => notifyClient (wr e.1) e.1 e.2).map
          fun e => e.2.2) =
          writtenFrames ((notifyClient (wr a.1) a.1 a.2).map fun e => e.2.2) ++
            writtenFrames ((t.flatMap fun e => notifyClient (wr e.1) e.1 e.2).map
              fun e => e.2.2) := by
        simp [writtenFrames, List.flatMap_cons, List.filterMap_append]
      rw [hsplit, ih]
      cases h : wr a.1 <;> simp [notifyClient, writtenFrames, List.replicate_succ]

/-- Claim C5: `notifyClientsOfTermination` leaves the registry as it is and, for
every assignment `wr` of write outcomes, performs on a registered client exactly
one write of the frame `event: termination`, `data: Server is shutting down.`
and an empty line, followed by a flush when the write succeeds (by a log entry
when it fails), and nothing on a client that is not registered; the outcome of
one client has no effect on what is done for another. -/
theorem notifyClientsOfTermination_broadcast (wr : String → Option WriteErr)
    (clients : Registry) (id : String) :
    (notifyClientsOfTermination wr clients).1 = clients ∧
    (clients.lookup id = none →
      eventsOf id (notifyClientsOfTermination wr clients).2 = []) ∧
    (∀ c, clients.lookup id = some c → wr id = none →
      eventsOf id (notifyClientsOfTermination wr clients).2 =
        [(id, c, .write "event: termination\ndata: Server is shutting down.\n\n" none),
         (id, c, .flush)]) ∧
    (∀ c e, clients.lookup id = some c → wr id = some e →
      eventsOf id (notifyClientsOfTermination wr clients).2 =
        [(id, c, .write "event: termination\ndata: Server is shutting down.\n\n" (some e)),
         (id, c, .log ("unable to notify client " ++ id ++ ": " ++ e.text))]) ∧
    writtenFrames ((notifyClientsOfTermination wr clients).2.map fun e => e.2.2) =
      List.replicate clients.entries.length
        "event: termination\ndata: Server is shutting down.\n\n" :=
  notifyClientsOfTermination_events wr clients id

theorem notifyClientsOfTermination_broadcast_witness :
    eventsOf "u3" (notifyClientsOfTermination
        (fun id => if id = "u1" then some .epipe else none)
        (addClient "u2" 3 (addClient "u1" 7 ∅))).2 = [] ∧
    eventsOf "u2" (notifyClientsOfTermination
        (fun id => if id = "u1" then some .epipe else none)
        (addClient "u2" 3 (addClient "u1" 7 ∅))).2 =
      [("u2", 3, .write "event: termination\ndata: Server is shutting down.\n\n" none),
       ("u2", 3, .flush)] ∧
    eventsOf "u1" (notifyClientsOfTermination
        (fun id => if id = "u1" then some .epipe else none)
        (addClient "u2" 3 (addClient "u1" 7 ∅))).2 =
      [("u1", 7, .write "event: termination\ndata: Server is shutting down.\n\n"
          (some .epipe)),
       ("u1", 7, .log ("unable to notify client " ++ "u1" ++ ": " ++ WriteErr.text .epipe))] ∧
    writtenFrames ((notifyClientsOfTermination
        (fun id => if id = "u1" then some .epipe else none)
        (addClient "u2" 3 (addClient "u1" 7 ∅))).2.map fun e => e.2.2) =
      ["event: termination\ndata: Server is shutting down.\n\n",
       "event: termination\ndata: Server is shutting down.\n\n"] :=
  ⟨(notifyClientsOfTermination_broadcast _ (addClient "u2" 3 (addClient "u1" 7 ∅)) "u3").2.1
      (by decide),
   (notifyClientsOfTermination_broadcast _ (addClient "u2" 3 (addClient "u1" 7 ∅)) "u2").2.2.1
      3 (by decide) (by decide),
   (notifyClientsOfTermination_broadcast _ (addClient "u2" 3 (addClient "u1" 7 ∅)) "u1").2.2.2.1
      7 .epipe (by decide) (by decide),
   (notifyClientsOfTermination_broadcast _ (addClient "u2" 3 (addClient "u1" 7 ∅)) "u1").2.2.2.2⟩

/-! ## The handler `streamLogs` -/

theorem streamLogs_of_open_none (os : OS) (wr : Nat → Option WriteErr)
    (deploymentID clientID : String) (c : Conn) (clients : Registry)
    (others : List RegistryOp) (fuel : Nat)
    (h : os.Open (os.Join deploymentDir (deploymentID ++ ".txt")) = none) :
    streamLogs os wr deploymentID clientID c clients others fuel =
      { response := none, headers := [], registered := none, clients := clients,
        trace := [.log ("error opening the file for streaming logs, deployment-id: "
          ++ deploymentID)],
        returned := true } := by
  simp only [streamLogs, h]

theorem streamLogs_of_open_some (os : OS) (wr : Nat → Option WriteErr)
    (deploymentID clientID : String) (c : Conn) (clients : Registry)
    (others : List RegistryOp) (fuel : Nat) (rd : Nat → Pull)
    (h : os.Open (os.Join deploymentDir (deploymentID ++ ".txt")) = some rd) :
    streamLogs os wr deploymentID clientID c clients others fuel =
      { response := none, headers := setupResponseHeaders clientID,
        registered := some (addClient clientID c clients),
        clients := if (handleLogStreaming rd wr clientID fuel).ended
          then removeClient clientID (applyOps others (addClient clientID c clients))
          else applyOps others (addClient clientID c clients),
        trace := (handleLogStreaming rd wr clientID fuel).trace,
        returned := (handleLogStreaming rd wr clientID fuel).ended } := by
  simp only [streamLogs, h]

theorem RegistryOp.apply_lookup_ne (op : RegistryOp) (clients : Registry) {k : String}
    (h : op.key ≠ k) : (op.apply clients).lookup k = clients.lookup k := by
  cases op with
  | add id c => exact addClient_lookup_ne c clients (Ne.symm h)
  | remove id => exact removeClient_lookup_ne clients (Ne.symm h)
  | disconnect header =>
    show (handleDisconnect header clients).2.lookup k = _
    unfold handleDisconnect
    split
    · rfl
    · exact removeClient_lookup_ne clients (Ne.symm h)

theorem RegistryOp.apply_lookup_congr (op : RegistryOp) (r r' : Registry) (k : String)
    (h : r.lookup k = r'.lookup k) : (op.apply r).lookup k = (op.apply r').lookup k := by
  by_cases hk : op.key = k
  · cases op with
    | add id c =>
      have hid : id = k := hk
      subst hid
      exact (addClient_lookup_self id c r).trans (addClient_lookup_self id c r').symm
    | remove id =>
      have hid : id = k := hk
      subst hid
      exact (removeClient_lookup_self id r).trans (removeClient_lookup_self id r').symm
    | disconnect header =>
      have hid : header = k := hk
      subst hid
      show (handleDisconnect header r).2.lookup header
        = (handleDisconnect header r').2.lookup header
      unfold handleDisconnect
      split
      · exact h
      · exact (removeClient_lookup_self header r).trans
          (removeClient_lookup_self header r').symm
  · rw [op.apply_lookup_ne r hk, op.apply_lookup_ne r' hk, h]

theorem applyOps_lookup_congr (ops : List RegistryOp) (k : String) :
    ∀ r r' : Registry, r.lookup k = r'.lookup k →
      (applyOps ops r).lookup k = (applyOps ops r').lookup k := by
  induction ops with
  | nil => intro r r' h; exact h
  | cons op t ih =>
    intro r r' h
    exact ih (op.apply r) (op.apply r') (op.apply_lookup_congr r r' k h)

theorem applyOps_lookup_untouched (ops : List RegistryOp) (k : String) :
    ∀ r : Registry, (∀ op ∈ ops, op.key ≠ k) → (applyOps ops r).lookup k = r.lookup k := by
  induction ops with
  | nil => intro r _; rfl
  | cons op t ih =>
    intro r h
    have h1 := ih (op.apply r) (fun o ho => h o (List.mem_cons_of_mem _ ho))
    exact h1.trans (op.apply_lookup_ne r (h op (List.mem_cons_self _ _)))

/-- Claim C4, refuted: a session that streams can lose its registry entry.
After the first data frame a `POST /disconnect` with the client id of the
session removes the entry; the session has not returned and writes a second data
frame, while the registry does not map its client id to its handle. -/
theorem streamLogs_disconnected_while_streaming :
    (streamLogs (oneFile fun _ => ("line\n", none)) (fun _ => none) "d1" "u1" 7 ∅
        [] 1).clients.lookup "u1" = some 7 ∧
    writtenFrames (streamLogs (oneFile fun _ => ("line\n", none)) (fun _ => none) "d1" "u1" 7 ∅
        [] 1).trace = ["data: line\n\n"] ∧
    (streamLogs (oneFile fun _ => ("line\n", none)) (fun _ => none) "d1" "u1" 7 ∅
        [.disconnect "u1"] 2).returned = false ∧
    writtenFrames (streamLogs (oneFile fun _ => ("line\n", none)) (fun _ => none) "d1" "u1" 7 ∅
        [.disconnect "u1"] 2).trace = ["data: line\n\n", "data: line\n\n"] ∧
    ¬ ((streamLogs (oneFile fun _ => ("line\n", none)) (fun _ => none) "d1" "u1" 7 ∅
        [.disconnect "u1"] 2).clients.lookup "u1" = some 7) := by
  decide

/-- Claim C4, amended: whatever other handlers do to the shared map during the
session, once `streamLogs` has returned the map does not contain the client id
of the session, and an entry under another id is what the other handlers made
of it (what it was before the run when they did nothing).  While the session is
streaming, the map has the client id with the handle of the session as long as
no other handler has operated on that id.  When the log cannot be opened the
handler returns with the map as it was. -/
theorem streamLogs_no_orphan (os : OS) (wr : Nat → Option WriteErr)
    (deploymentID clientID : String) (c : Conn) (clients : Registry)
    (others : List RegistryOp) (fuel : Nat) :
    (os.Open (os.Join deploymentDir (deploymentID ++ ".txt")) = none →
      (streamLogs os wr deploymentID clientID c clients others fuel).returned = true ∧
      (streamLogs os wr deploymentID clientID c clients others fuel).registered = none ∧
      (streamLogs os wr deploymentID clientID c clients others fuel).clients = clients) ∧
    (∀ rd, os.Open (os.Join deploymentDir (deploymentID ++ ".txt")) = some rd →
      (streamLogs os wr deploymentID clientID c clients others fuel).registered
        = some (addClient clientID c clients) ∧
      (addClient clientID c clients).lookup clientID = some c ∧
      ((streamLogs os wr deploymentID clientID c clients others fuel).returned = true →
        (streamLogs os wr deploymentID clientID c clients others fuel).clients.lookup clientID
          = none) ∧
      (∀ k, k ≠ clientID →
        (streamLogs os wr deploymentID clientID c clients others fuel).clients.lookup k
          = (applyOps others clients).lookup k) ∧
      (others = [] → ∀ k, k ≠ clientID →
        (streamLogs os wr deploymentID clientID c clients others fuel).clients.lookup k
          = clients.lookup k) ∧
      ((streamLogs os wr deploymentID clientID c clients others fuel).returned = false →
        (∀ op ∈ others, op.key ≠ clientID) →
        (streamLogs os wr deploymentID clientID c clients others fuel).clients.lookup clientID
          = some c)) := by
  cases h : os.Open (os.Join deploymentDir (deploymentID ++ ".txt")) with
  | none =>
    rw [streamLogs_of_open_none os wr deploymentID clientID c clients others fuel h]
    exact ⟨fun _ => ⟨rfl, rfl, rfl⟩, fun rd hrd => by simp at hrd⟩
  | some rd =>
    rw [streamLogs_of_open_some os wr deploymentID clientID c clients others fuel rd h]
    have hother : ∀ k, k ≠ clientID →
        AList.lookup k (if (handleLogStreaming rd wr clientID fuel).ended
          then removeClient clientID (applyOps others (addClient clientID c clients))
          else applyOps others (addClient clientID c clients))
        = (applyOps others clients).lookup k := by
      intro k hk
      have hcongr := applyOps_lookup_congr others k (addClient clientID c clients) clients
        (addClient_lookup_ne c clients hk)
      split
      · rw [removeClient_lookup_ne _ hk, hcongr]
      · exact hcongr
    refine ⟨fun hn => by simp at hn, fun rd' _ => ⟨rfl, addClient_lookup_self _ _ _,
      fun hr => ?_, hother, fun hnil k hk => ?_, fun hr hops => ?_⟩⟩
    · show AList.lookup clientID (if _ then _ else _) = _
      have hr' : (handleLogStreaming rd wr clientID fuel).ended = true := hr
      rw [if_pos hr']
      exact removeClient_lookup_self _ _
    · have := hother k hk
      rw [hnil] at this ⊢
      exact this
    · show AList.lookup clientID (if _ then _ else _) = _
      have hr' : (handleLogStreaming rd wr clientID fuel).ended = false := hr
      rw [if_neg (by simp [hr'])]
      rw [applyOps_lookup_untouched others clientID _ hops]
      exact addClient_lookup_self _ _ _

theorem streamLogs_no_orphan_witness :
    ((streamLogs (noFiles joinPath) (fun _ => none) "d1" "u1" 7 (addClient "u2" 3 ∅)
        [] 0).returned = true ∧
      (streamLogs (noFiles joinPath) (fun _ => none) "d1" "u1" 7 (addClient "u2" 3 ∅)
        [] 0).registered = none ∧
      (streamLogs (noFiles joinPath) (fun _ => none) "d1" "u1" 7 (addClient "u2" 3 ∅)
        [] 0).clients = addClient "u2" 3 ∅) ∧
    (streamLogs (oneFile fun _ => ("line\n", none)) (fun _ => some .epipe) "d1" "u1" 7
        (addClient "u2" 3 ∅) [.disconnect "u1", .add "u3" 9] 1).clients.lookup "u1" = none ∧
    (streamLogs (oneFile fun _ => ("line\n", none)) (fun _ => some .epipe) "d1" "u1" 7
        (addClient "u2" 3 ∅) [.add "u3" 9, .disconnect "u2"] 0).clients.lookup "u1" = some 7 ∧
    (streamLogs (oneFile fun _ => ("line\n", none)) (fun _ => some .epipe) "d1" "u1" 7
        (addClient "u2" 3 ∅) [] 1).clients.lookup "u2" = some 3 :=
  ⟨(streamLogs_no_orphan (noFiles joinPath) (fun _ => none) "d1" "u1" 7 (addClient "u2" 3 ∅)
      [] 0).1 rfl,
   ((streamLogs_no_orphan (oneFile fun _ => ("line\n", none)) (fun _ => some .epipe) "d1" "u1" 7
      (addClient "u2" 3 ∅) [.disconnect "u1", .add "u3" 9] 1).2 _ rfl).2.2.1 (by decide),
   ((streamLogs_no_orphan (oneFile fun _ => ("line\n", none)) (fun _ => some .epipe) "d1" "u1" 7
      (addClient "u2" 3 ∅) [.add "u3" 9, .disconnect "u2"] 0).2 _ rfl).2.2.2.2.2 (by decide)
      (by decide),
   (((streamLogs_no_orphan (oneFile fun _ => ("line\n", none)) (fun _ => some .epipe) "d1" "u1" 7
      (addClient "u2" 3 ∅) [] 1).2 _ rfl).2.2.2.2.1 rfl "u2" (by decide)).trans (by decide)⟩

/-- Claim C7, on the code: when the log cannot be opened `streamLogs` registers
no client and writes no frame, but it sets no status either, so that the status
sent is 200 and not 500. -/
theorem streamLogs_unopenable_status (join : String → String → String)
    (wr : Nat → Option WriteErr) (deploymentID clientID : String) (c : Conn)
    (clients : Registry) (others : List RegistryOp) (fuel : Nat) :
    (streamLogs (noFiles join) wr deploymentID clientID c clients others fuel).returned
      = true ∧
    (streamLogs (noFiles join) wr deploymentID clientID c clients others fuel).response
      = none ∧
    sentStatus
      (streamLogs (noFiles join) wr deploymentID clientID c clients others fuel).response
        = 200 ∧
    sentStatus
      (streamLogs (noFiles join) wr deploymentID clientID c clients others fuel).response
        ≠ StatusInternalServerError ∧
    (streamLogs (noFiles join) wr deploymentID clientID c clients others fuel).registered
      = none ∧
    (streamLogs (noFiles join) wr deploymentID clientID c clients others fuel).clients
      = clients ∧
    writtenFrames
      (streamLogs (noFiles join) wr deploymentID clientID c clients others fuel).trace
        = [] := by
  rw [streamLogs_of_open_none (noFiles join) wr deploymentID clientID c clients others fuel rfl]
  refine ⟨rfl, rfl, rfl, ?_, rfl, rfl, rfl⟩
  show sentStatus none ≠ StatusInternalServerError
  decide

/-! ## The loop of `handleLogStreaming`, case by case -/

theorem handleLogStreaming_zero (rd : Nat → Pull) (wr : Nat → Option WriteErr)
    (clientID : String) : handleLogStreaming rd wr clientID 0 = Loop.init := rfl

theorem handleLogStreaming_succ (rd : Nat → Pull) (wr : Nat → Option WriteErr)
    (clientID : String) (n : Nat) :
    handleLogStreaming rd wr clientID (n + 1) =
      loopBody rd wr clientID (handleLogStreaming rd wr clientID n) :=
  Function.iterate_succ_apply' _ _ _

theorem loopBody_ended (rd : Nat → Pull) (wr : Nat → Option WriteErr) (clientID : String)
    (s : Loop) (h : s.ended = true) : loopBody rd wr clientID s = s := by
  simp [loopBody, h]

theorem loopBody_iterate_ended (rd : Nat → Pull) (wr : Nat → Option WriteErr)
    (clientID : String) (s : Loop) (h : s.ended = true) (m : Nat) :
    (loopBody rd wr clientID)^[m] s = s := by
  induction m with
  | zero => rfl
  | succ m ih => rw [Function.iterate_succ_apply', ih, loopBody_ended _ _ _ _ h]

theorem handleLogStreaming_add (rd : Nat → Pull) (wr : Nat → Option WriteErr)
    (clientID : String) (n m : Nat) :
    handleLogStreaming rd wr clientID (n + m) =
      (loopBody rd wr clientID)^[m] (handleLogStreaming rd wr clientID n) := by
  unfold handleLogStreaming
  rw [Nat.add_comm, Function.iterate_add_apply]

theorem handleLogStreaming_stays_ended (rd : Nat → Pull) (wr : Nat → Option WriteErr)
    (clientID : String) (n m : Nat) (h : (handleLogStreaming rd wr clientID n).ended = true) :
    handleLogStreaming rd wr clientID (n + m) = handleLogStreaming rd wr clientID n := by
  rw [handleLogStreaming_add, loopBody_iterate_ended _ _ _ _ h]

theorem loopBody_idle (rd : Nat → Pull) (wr : Nat → Option WriteErr) (clientID : String)
    (s : Loop) (h : s.ended = false) (hc : s.eofCount = logIdleTimeout) :
    loopBody rd wr clientID s =
      { s with writes := s.writes + 1,
               trace := s.trace ++ (checkForInactivity (wr s.writes) clientID s.eofCount).2,
               ended := true } := by
  cases hw : wr s.writes <;> simp [loopBody, h, hc, checkForInactivity, hw]

theorem loopBody_eof (rd : Nat → Pull) (wr : Nat → Option WriteErr) (clientID : String)
    (s : Loop) (h : s.ended = false) (hc : s.eofCount ≠ logIdleTimeout)
    (hp : (rd s.reads).2 = some .eof) :
    loopBody rd wr clientID s =
      { s with eofCount := s.eofCount + 1, reads := s.reads + 1,
               trace := s.trace ++ [.pull, .sleep 400] } := by
  simp [loopBody, h, hc, checkForInactivity, readLogLine, hp]

theorem loopBody_readError (rd : Nat → Pull) (wr : Nat → Option WriteErr)
    (clientID : String) (s : Loop) (h : s.ended = false) (hc : s.eofCount ≠ logIdleTimeout)
    (hp : (rd s.reads).2 = some .other) :
    loopBody rd wr clientID s =
      { s with reads := s.reads + 1,
               trace := s.trace ++ [.pull, .log "error reading file for streaming logs"] } := by
  simp [loopBody, h, hc, checkForInactivity, readLogLine, hp]

theorem loopBody_sent (rd : Nat → Pull) (wr : Nat → Option WriteErr) (clientID : String)
    (s : Loop) (h : s.ended = false) (hc : s.eofCount ≠ logIdleTimeout)
    (hp : (rd s.reads).2 = none) (hw : wr s.writes = none) :
    loopBody rd wr clientID s =
      { s with eofCount := 0, reads := s.reads + 1, writes := s.writes + 1,
               trace := s.trace ++
                 [.pull, .write (dataFrame (TrimRight (rd s.reads).1)) none, .flush] } := by
  simp [loopBody, h, hc, checkForInactivity, readLogLine, hp, hw, sendLogLine]

theorem sendLogLine_failed (e : WriteErr) (line clientID : String) :
    (sendLogLine (some e) line clientID).1 = false ∧
    ∃ msg, (sendLogLine (some e) line clientID).2 =
      [.write (dataFrame line) (some e), .log msg] := by
  cases e <;> exact ⟨rfl, _, rfl⟩

theorem loopBody_writeFailed (rd : Nat → Pull) (wr : Nat → Option WriteErr)
    (clientID : String) (s : Loop) (e : WriteErr) (h : s.ended = false)
    (hc : s.eofCount ≠ logIdleTimeout) (hp : (rd s.reads).2 = none)
    (hw : wr s.writes = some e) :
    loopBody rd wr clientID s =
      { s with reads := s.reads + 1, writes := s.writes + 1,
               trace := s.trace ++
                 .pull :: (sendLogLine (some e) (TrimRight (rd s.reads).1) clientID).2,
               ended := true } := by
  have hf := (sendLogLine_failed e (TrimRight (rd s.reads).1) clientID).1
  simp [loopBody, h, hc, checkForInactivity, readLogLine, hp, hw, hf]

/-! ## A reader that always fails -/

/-- Claim C10, on the code: when every `ReadString` returns an error other than
`io.EOF` (with whatever bytes), `handleLogStreaming` has not returned after any
number of iterations: the idle counter stays 0, every iteration makes one more
pull, and no frame is ever written. -/
theorem handleLogStreaming_readError_loops (data : Nat → String) (clientID : String)
    (wr : Nat → Option WriteErr) (n : Nat) :
    (handleLogStreaming (fun i => (data i, some .other)) wr clientID n).ended = false ∧
    (handleLogStreaming (fun i => (data i, some .other)) wr clientID n).eofCount = 0 ∧
    (handleLogStreaming (fun i => (data i, some .other)) wr clientID n).reads = n ∧
    (handleLogStreaming (fun i => (data i, some .other)) wr clientID n).writes = 0 ∧
    pullCount (handleLogStreaming (fun i => (data i, some .other)) wr clientID n).trace = n ∧
    writtenFrames (handleLogStreaming (fun i => (data i, some .other)) wr clientID n).trace
      = [] := by
  induction n with
  | zero => exact ⟨rfl, rfl, rfl, rfl, rfl, rfl⟩
  | succ n ih =>
    obtain ⟨h1, h2, h3, h4, h5, h6⟩ := ih
    have hc : (handleLogStreaming (fun i => (data i, some .other)) wr clientID n).eofCount
        ≠ logIdleTimeout := by rw [h2]; decide
    rw [handleLogStreaming_succ, loopBody_readError _ _ _ _ h1 hc rfl]
    refine ⟨h1, h2, by simp [h3], h4, ?_, ?_⟩
    · simp only [pullCount, List.count_append] at h5 ⊢
      rw [h5]
      rfl
    · simp only [writtenFrames, List.filterMap_append] at h6 ⊢
      rw [h6]
      rfl

/-! ## A failed write of a data frame -/

theorem unclassified_checkForInactivity (w w' : Option WriteErr) (clientID : String)
    (c : Nat) (h : w.isSome = w'.isSome) :
    (checkForInactivity w clientID c).2.filterMap Event.unclassified =
      (checkForInactivity w' clientID c).2.filterMap Event.unclassified := by
  cases w with
  | none =>
    cases w' with
    | none => rfl
    | some e' => simp at h
  | some e =>
    cases w' with
    | none => simp at h
    | some e' =>
      simp only [checkForInactivity]
      split <;> simp [Event.unclassified]

theorem unclassified_sendLogLine (w w' : Option WriteErr) (line clientID : String)
    (h : w.isSome = w'.isSome) :
    (sendLogLine w line clientID).1 = (sendLogLine w' line clientID).1 ∧
    (sendLogLine w line clientID).2.filterMap Event.unclassified =
      (sendLogLine w' line clientID).2.filterMap Event.unclassified := by
  cases w with
  | none =>
    cases w' with
    | none => exact ⟨rfl, rfl⟩
    | some e' => simp at h
  | some e =>
    cases w' with
    | none => simp at h
    | some e' => cases e <;> cases e' <;> exact ⟨rfl, rfl⟩

theorem loopBody_unclassified (rd : Nat → Pull) (wr wr' : Nat → Option WriteErr)
    (clientID : String) (hw : ∀ j, (wr j).isSome = (wr' j).isSome) (s t : Loop)
    (h1 : s.eofCount = t.eofCount) (h2 : s.reads = t.reads) (h3 : s.writes = t.writes)
    (h4 : s.ended = t.ended)
    (h5 : s.trace.filterMap Event.unclassified = t.trace.filterMap Event.unclassified) :
    (loopBody rd wr clientID s).eofCount = (loopBody rd wr' clientID t).eofCount ∧
    (loopBody rd wr clientID s).reads = (loopBody rd wr' clientID t).reads ∧
    (loopBody rd wr clientID s).writes = (loopBody rd wr' clientID t).writes ∧
    (loopBody rd wr clientID s).ended = (loopBody rd wr' clientID t).ended ∧
    (loopBody rd wr clientID s).trace.filterMap Event.unclassified =
      (loopBody rd wr' clientID t).trace.filterMap Event.unclassified := by
  cases he : s.ended with
  | true =>
    rw [loopBody_ended _ _ _ s he, loopBody_ended _ _ _ t (h4 ▸ he)]
    exact ⟨h1, h2, h3, h4, h5⟩
  | false =>
    have he' : t.ended = false := h4 ▸ he
    by_cases hc : s.eofCount = logIdleTimeout
    · have hc' : t.eofCount = logIdleTimeout := h1 ▸ hc
      rw [loopBody_idle _ _ _ s he hc, loopBody_idle _ _ _ t he' hc']
      refine ⟨h1, h2, by simp [h3], rfl, ?_⟩
      simp only [List.filterMap_append, h5]
      rw [unclassified_checkForInactivity (wr s.writes) (wr' t.writes) clientID s.eofCount
        (by rw [h3]; exact hw _), h1]
    · have hc' : t.eofCount ≠ logIdleTimeout := h1 ▸ hc
      cases hp : (rd s.reads).2 with
      | some re =>
        cases re with
        | eof =>
          rw [loopBody_eof _ _ _ s he hc hp, loopBody_eof _ _ _ t he' hc' (h2 ▸ hp)]
          refine ⟨by simp [h1], by simp [h2], h3, h4, ?_⟩
          simp only [List.filterMap_append, h5]
        | other =>
          rw [loopBody_readError _ _ _ s he hc hp,
            loopBody_readError _ _ _ t he' hc' (h2 ▸ hp)]
          refine ⟨h1, by simp [h2], h3, h4, ?_⟩
          simp only [List.filterMap_append, h5]
      | none =>
        have hp' : (rd t.reads).2 = none := h2 ▸ hp
        have hiso : (wr s.writes).isSome = (wr' t.writes).isSome := by rw [h3]; exact hw _
        cases hws : wr s.writes with
        | none =>
          cases hwt : wr' t.writes with
          | none =>
            rw [loopBody_sent _ _ _ s he hc hp hws, loopBody_sent _ _ _ t he' hc' hp' hwt]
            refine ⟨rfl, by simp [h2], by simp [h3], h4, ?_⟩
            simp only [List.filterMap_append, h5, h2]
          | some e' => rw [hws, hwt] at hiso; simp at hiso
        | some e =>
          cases hwt : wr' t.writes with
          | none => rw [hws, hwt] at hiso; simp at hiso
          | some e' =>
            rw [loopBody_writeFailed _ _ _ s e he hc hp hws,
              loopBody_writeFailed _ _ _ t e' he' hc' hp' hwt]
            refine ⟨h1, by simp [h2], by simp [h3], rfl, ?_⟩
            simp only [List.filterMap_append, List.filterMap_cons, h5, h2]
            rw [(unclassified_sendLogLine (some e) (some e') (TrimRight (rd t.reads).1)
              clientID rfl).2]

theorem handleLogStreaming_unclassified (rd : Nat → Pull) (wr wr' : Nat → Option WriteErr)
    (clientID : String) (hw : ∀ j, (wr j).isSome = (wr' j).isSome) (k : Nat) :
    (handleLogStreaming rd wr clientID k).eofCount
      = (handleLogStreaming rd wr' clientID k).eofCount ∧
    (handleLogStreaming rd wr clientID k).reads
      = (handleLogStreaming rd wr' clientID k).reads ∧
    (handleLogStreaming rd wr clientID k).writes
      = (handleLogStreaming rd wr' clientID k).writes ∧
    (handleLogStreaming rd wr clientID k).ended
      = (handleLogStreaming rd wr' clientID k).ended ∧
    (handleLogStreaming rd wr clientID k).trace.filterMap Event.unclassified =
      (handleLogStreaming rd wr' clientID k).trace.filterMap Event.unclassified := by
  induction k with
  | zero => exact ⟨rfl, rfl, rfl, rfl, rfl⟩
  | succ k ih =>
    obtain ⟨h1, h2, h3, h4, h5⟩ := ih
    rw [handleLogStreaming_succ, handleLogStreaming_succ]
    exact loopBody_unclassified rd wr wr' clientID hw _ _ h1 h2 h3 h4 h5

/-- Claim C3: when the session, after `n` iterations, pulls a line and the write
of its data frame fails with an error `e` of any class, `sendLogLine` returns
false and `handleLogStreaming` has returned: whatever the number of further
iterations allowed, the trace is the trace so far followed by the pull, the
failed write and one log entry, so that no pull and no frame follows.  Two
sessions whose writes fail at the same places, with errors of any classes, have
the same state and the same trace up to the log entries and the error class. -/
theorem write_failure_ends_session (rd : Nat → Pull) (wr : Nat → Option WriteErr)
    (clientID : String) :
    (∀ (n : Nat) (s : Loop) (e : WriteErr),
      handleLogStreaming rd wr clientID n = s →
      s.ended = false → s.eofCount ≠ logIdleTimeout →
      (rd s.reads).2 = none → wr s.writes = some e →
      (sendLogLine (some e) (TrimRight (rd s.reads).1) clientID).1 = false ∧
      ∃ msg, ∀ m,
        handleLogStreaming rd wr clientID (n + 1 + m) =
          { eofCount := s.eofCount, reads := s.reads + 1, writes := s.writes + 1,
            trace := s.trace ++
              [.pull, .write (dataFrame (TrimRight (rd s.reads).1)) (some e), .log msg],
            ended := true }) ∧
    (∀ (wr' : Nat → Option WriteErr), (∀ j, (wr j).isSome = (wr' j).isSome) → ∀ k,
      (handleLogStreaming rd wr clientID k).eofCount
        = (handleLogStreaming rd wr' clientID k).eofCount ∧
      (handleLogStreaming rd wr clientID k).reads
        = (handleLogStreaming rd wr' clientID k).reads ∧
      (handleLogStreaming rd wr clientID k).writes
        = (handleLogStreaming rd wr' clientID k).writes ∧
      (handleLogStreaming rd wr clientID k).ended
        = (handleLogStreaming rd wr' clientID k).ended ∧
      (handleLogStreaming rd wr clientID k).trace.filterMap Event.unclassified =
        (handleLogStreaming rd wr' clientID k).trace.filterMap Event.unclassified) := by
  refine ⟨fun n s e hs he hc hp hw => ?_, fun wr' hw k =>
    handleLogStreaming_unclassified rd wr wr' clientID hw k⟩
  obtain ⟨hf, msg, hmsg⟩ := sendLogLine_failed e (TrimRight (rd s.reads).1) clientID
  refine ⟨hf, msg, fun m => ?_⟩
  have hstep : handleLogStreaming rd wr clientID (n + 1) =
      { eofCount := s.eofCount, reads := s.reads + 1, writes := s.writes + 1,
        trace := s.trace ++
          [.pull, .write (dataFrame (TrimRight (rd s.reads).1)) (some e), .log msg],
        ended := true } := by
    rw [handleLogStreaming_succ, hs, loopBody_writeFailed _ _ _ s e he hc hp hw, hmsg]
  rw [handleLogStreaming_stays_ended _ _ _ _ _ (by rw [hstep]), hstep]

theorem write_failure_ends_session_witness :
    (sendLogLine (some .canceled) (TrimRight "line\n") "u1").1 = false ∧
    ∃ msg, ∀ m,
      handleLogStreaming (fun _ => ("line\n", none))
          (fun j => if j = 1 then some .canceled else none) "u1" (1 + 1 + m) =
        { eofCount := 0, reads := 1 + 1, writes := 1 + 1,
          trace := [.pull, .write (dataFrame "line") none, .flush] ++
            [.pull, .write (dataFrame (TrimRight "line\n")) (some .canceled), .log msg],
          ended := true } :=
  (write_failure_ends_session (fun _ => ("line\n", none))
      (fun j => if j = 1 then some .canceled else none) "u1").1 1
    { eofCount := 0, reads := 1, writes := 1,
      trace := [.pull, .write (dataFrame "line") none, .flush], ended := false }
    .canceled (by decide) rfl (by decide) rfl rfl

/-! ## Idle timeout -/

theorem dataFrame_ne_inactivityFrame (line : String) : dataFrame line ≠ inactivityFrame := by
  intro h
  have := congrArg String.data h
  simp [dataFrame, inactivityFrame, String.data_append] at this

theorem writtenFrames_append (a b : List Event) :
    writtenFrames (a ++ b) = writtenFrames a ++ writtenFrames b := by
  simp [writtenFrames, List.filterMap_append]

theorem writtenFrames_idleWait (i : Nat) : writtenFrames (idleWait i) = [] := by
  induction i with
  | zero => rfl
  | succ i ih => rw [idleWait, writtenFrames_append, ih]; rfl

theorem writtenFrames_idleClose (w : Option WriteErr) (clientID : String) :
    writtenFrames (idleClose w clientID) = [inactivityFrame] := by
  cases w <;> rfl

theorem checkForInactivity_idle (w : Option WriteErr) (clientID : String) :
    (checkForInactivity w clientID logIdleTimeout).2 = idleClose w clientID := by
  cases w <;> simp [checkForInactivity, idleClose]

theorem writtenFrames_sendLogLine (w : Option WriteErr) (line clientID : String) :
    writtenFrames (sendLogLine w line clientID).2 = [dataFrame line] := by
  cases w with
  | none => rfl
  | some e => cases e <;> rfl

/-- An iteration that starts with an idle counter other than 60 writes no
inactivity frame. -/
theorem loopBody_count_inactivity (rd : Nat → Pull) (wr : Nat → Option WriteErr)
    (clientID : String) (s : Loop) (hc : s.eofCount ≠ logIdleTimeout) :
    (writtenFrames (loopBody rd wr clientID s).trace).count inactivityFrame =
      (writtenFrames s.trace).count inactivityFrame := by
  cases he : s.ended with
  | true => rw [loopBody_ended _ _ _ s he]
  | false =>
    cases hp : (rd s.reads).2 with
    | some re =>
      cases re with
      | eof =>
        rw [loopBody_eof _ _ _ s he hc hp]
        simp [writtenFrames_append, writtenFrames]
      | other =>
        rw [loopBody_readError _ _ _ s he hc hp]
        simp [writtenFrames_append, writtenFrames]
    | none =>
      have hne := dataFrame_ne_inactivityFrame (TrimRight (rd s.reads).1)
      cases hw : wr s.writes with
      | none =>
        rw [loopBody_sent _ _ _ s he hc hp hw]
        simp [writtenFrames_append, writtenFrames, List.count_cons, hne]
      | some e =>
        rw [loopBody_writeFailed _ _ _ s e he hc hp hw]
        show (writtenFrames (s.trace ++ ([.pull] ++ _))).count inactivityFrame = _
        rw [writtenFrames_append, writtenFrames_append, writtenFrames_sendLogLine]
        simp [writtenFrames, List.count_cons, hne]

/-- While the session is running no inactivity frame has been written. -/
theorem handleLogStreaming_running_no_inactivity (rd : Nat → Pull)
    (wr : Nat → Option WriteErr) (clientID : String) (k : Nat)
    (h : (handleLogStreaming rd wr clientID k).ended = false) :
    (writtenFrames (handleLogStreaming rd wr clientID k).trace).count inactivityFrame = 0 := by
  induction k with
  | zero => rfl
  | succ k ih =>
    rw [handleLogStreaming_succ] at h ⊢
    cases he : (handleLogStreaming rd wr clientID k).ended with
    | true => rw [loopBody_ended _ _ _ _ he] at h; rw [he] at h; cases h
    | false =>
      by_cases hc : (handleLogStreaming rd wr clientID k).eofCount = logIdleTimeout
      · rw [loopBody_idle _ _ _ _ he hc] at h
        cases h
      · rw [loopBody_count_inactivity _ _ _ _ hc]
        exact ih he

theorem handleLogStreaming_idleWait (rd : Nat → Pull) (wr : Nat → Option WriteErr)
    (clientID : String) (n : Nat) (s : Loop)
    (hs : handleLogStreaming rd wr clientID n = s) (hrun : s.ended = false)
    (hzero : s.eofCount = 0)
    (heof : ∀ i, i < logIdleTimeout → (rd (s.reads + i)).2 = some .eof) :
    ∀ i, i ≤ logIdleTimeout →
      handleLogStreaming rd wr clientID (n + i) =
        { s with eofCount := i, reads := s.reads + i, trace := s.trace ++ idleWait i } := by
  intro i
  induction i with
  | zero =>
    intro _
    rw [Nat.add_zero, hs]
    cases s
    simp only [Loop.mk.injEq] at hzero ⊢
    simp_all [idleWait]
  | succ i ih =>
    intro hi
    have hlt : i < logIdleTimeout := hi
    rw [← Nat.add_assoc, handleLogStreaming_succ, ih (Nat.le_of_lt hlt)]
    rw [loopBody_eof rd wr clientID
      { s with eofCount := i, reads := s.reads + i, trace := s.trace ++ idleWait i }
      hrun (Nat.ne_of_lt hlt) (heof i hlt)]
    simp [idleWait, List.append_assoc, Nat.add_assoc]

/-- The idle timeout, with the frame by its name. -/
theorem handleLogStreaming_idle_close (rd : Nat → Pull) (wr : Nat → Option WriteErr)
    (clientID : String) :
    (∀ (n : Nat) (s : Loop),
      handleLogStreaming rd wr clientID n = s → s.ended = false → s.eofCount = 0 →
      (∀ i, i < logIdleTimeout → (rd (s.reads + i)).2 = some .eof) →
      (∀ i, i ≤ 60 →
        handleLogStreaming rd wr clientID (n + i) =
          { eofCount := i, reads := s.reads + i, writes := s.writes,
            trace := s.trace ++ idleWait i, ended := false }) ∧
      (∀ m,
        handleLogStreaming rd wr clientID (n + 61 + m) =
          { eofCount := 60, reads := s.reads + 60, writes := s.writes + 1,
            trace := s.trace ++ idleWait 60 ++ idleClose (wr s.writes) clientID,
            ended := true } ∧
        writtenFrames (handleLogStreaming rd wr clientID (n + 61 + m)).trace =
          writtenFrames s.trace ++ [inactivityFrame] ∧
        (writtenFrames (handleLogStreaming rd wr clientID (n + 61 + m)).trace).count
          inactivityFrame = 1 ∧
        pullCount (handleLogStreaming rd wr clientID (n + 61 + m)).trace =
          pullCount s.trace + 60)) ∧
    (∀ k, (handleLogStreaming rd wr clientID k).eofCount ≠ logIdleTimeout →
      (writtenFrames (handleLogStreaming rd wr clientID (k + 1)).trace).count inactivityFrame =
        (writtenFrames (handleLogStreaming rd wr clientID k).trace).count inactivityFrame) ∧
    (∀ k, (handleLogStreaming rd wr clientID k).ended = false →
      (writtenFrames (handleLogStreaming rd wr clientID k).trace).count inactivityFrame = 0) := by
  refine ⟨fun n s hs hrun hzero heof => ?_, fun k hk => ?_, fun k hk =>
    handleLogStreaming_running_no_inactivity rd wr clientID k hk⟩
  · have hwait := handleLogStreaming_idleWait rd wr clientID n s hs hrun hzero heof
    have h60 := hwait 60 (Nat.le_refl _)
    have h61 : handleLogStreaming rd wr clientID (n + 61) =
        { eofCount := 60, reads := s.reads + 60, writes := s.writes + 1,
          trace := s.trace ++ idleWait 60 ++ idleClose (wr s.writes) clientID,
          ended := true } := by
      rw [show n + 61 = n + 60 + 1 from rfl, handleLogStreaming_succ, h60]
      rw [loopBody_idle rd wr clientID
        { s with eofCount := 60, reads := s.reads + 60, trace := s.trace ++ idleWait 60 }
        hrun rfl]
      simp only [Loop.mk.injEq, true_and, and_true]
      exact congrArg _ (checkForInactivity_idle _ _)
    have hs0 : (writtenFrames s.trace).count inactivityFrame = 0 := by
      have := handleLogStreaming_running_no_inactivity rd wr clientID n (by rw [hs]; exact hrun)
      rwa [hs] at this
    have hpull : ∀ i, pullCount (idleWait i) = i := by
      intro i
      induction i with
      | zero => rfl
      | succ i ih =>
        simp only [pullCount, idleWait, List.count_append] at ih ⊢
        rw [ih]
        rfl
    refine ⟨fun i hi => ?_, fun m => ?_⟩
    · rw [hwait i hi, hrun]
    · have hm : handleLogStreaming rd wr clientID (n + 61 + m) =
          handleLogStreaming rd wr clientID (n + 61) :=
        handleLogStreaming_stays_ended _ _ _ _ _ (by rw [h61])
      rw [hm, h61]
      refine ⟨rfl, ?_, ?_, ?_⟩
      · simp only [writtenFrames_append, writtenFrames_idleWait, writtenFrames_idleClose,
          List.append_nil]
      · simp only [writtenFrames_append, writtenFrames_idleWait, writtenFrames_idleClose,
          List.append_nil, List.count_append, hs0]
        simp
      · have hclose : pullCount (idleClose (wr s.writes) clientID) = 0 := by
          cases wr s.writes <;> rfl
        simp only [pullCount, List.count_append] at hclose ⊢
        rw [hclose]
        have := hpull 60
        simp only [pullCount] at this
        rw [this]
  · rw [handleLogStreaming_succ]
    exact loopBody_count_inactivity rd wr clientID _ hk

/-- Claim C2: when the idle counter is 0 after `n` iterations and the next 60
pulls all return `io.EOF`, the session makes these 60 pulls without any write,
then makes one write of the frame `event: inactivity`, `data: closing connection
due to inactivity.` and an empty line (followed by a flush when it succeeds) and
has returned: whatever the number of further iterations allowed, nothing is
added to the trace.  That frame is the last frame written and is written exactly
once.  The counter is 0 at the start of the session and after every line that
was sent, whatever it was before: a session that sends a line and then makes 60
pulls that return `io.EOF` writes the data frame of that line, then the
inactivity frame, and has returned.  In every session, an iteration that starts
with a counter other than 60 writes no inactivity frame, and none has been
written while the session runs. -/
theorem idle_timeout_closes (rd : Nat → Pull) (wr : Nat → Option WriteErr)
    (clientID : String) :
    (handleLogStreaming rd wr clientID 0).eofCount = 0 ∧
    (handleLogStreaming rd wr clientID 0).ended = false ∧
    (∀ (n : Nat) (s : Loop),
      handleLogStreaming rd wr clientID n = s → s.ended = false → s.eofCount = 0 →
      (∀ i, i < 60 → (rd (s.reads + i)).2 = some .eof) →
      (∀ i, i ≤ 60 →
        handleLogStreaming rd wr clientID (n + i) =
          { eofCount := i, reads := s.reads + i, writes := s.writes,
            trace := s.trace ++ idleWait i, ended := false } ∧
        writtenFrames (handleLogStreaming rd wr clientID (n + i)).trace
          = writtenFrames s.trace) ∧
      (∀ m,
        (handleLogStreaming rd wr clientID (n + 61 + m)).ended = true ∧
        (handleLogStreaming rd wr clientID (n + 61 + m)).reads = s.reads + 60 ∧
        (handleLogStreaming rd wr clientID (n + 61 + m)).writes = s.writes + 1 ∧
        (wr s.writes = none →
          (handleLogStreaming rd wr clientID (n + 61 + m)).trace =
            s.trace ++ idleWait 60 ++
              [.write "event: inactivity\ndata: closing connection due to inactivity.\n\n" none,
               .flush]) ∧
        (∀ e, wr s.writes = some e →
          (handleLogStreaming rd wr clientID (n + 61 + m)).trace =
            s.trace ++ idleWait 60 ++
              [.write "event: inactivity\ndata: closing connection due to inactivity.\n\n"
                 (some e),
               .log ("unable to notify client " ++ clientID ++ ": " ++ e.text)]) ∧
        writtenFrames (handleLogStreaming rd wr clientID (n + 61 + m)).trace =
          writtenFrames s.trace ++
            ["event: inactivity\ndata: closing connection due to inactivity.\n\n"] ∧
        (writtenFrames (handleLogStreaming rd wr clientID (n + 61 + m)).trace).count
          "event: inactivity\ndata: closing connection due to inactivity.\n\n" = 1 ∧
        pullCount (handleLogStreaming rd wr clientID (n + 61 + m)).trace =
          pullCount s.trace + 60)) ∧
    (∀ (n : Nat) (s : Loop),
      handleLogStreaming rd wr clientID n = s → s.ended = false → s.eofCount ≠ 60 →
      (rd s.reads).2 = none → wr s.writes = none →
      (∀ i, i < 60 → (rd (s.reads + 1 + i)).2 = some .eof) →
      (handleLogStreaming rd wr clientID (n + 1)).eofCount = 0 ∧
      (handleLogStreaming rd wr clientID (n + 1)).ended = false ∧
      (∀ i, i ≤ 60 →
        (handleLogStreaming rd wr clientID (n + 1 + i)).eofCount = i ∧
        (handleLogStreaming rd wr clientID (n + 1 + i)).ended = false ∧
        writtenFrames (handleLogStreaming rd wr clientID (n + 1 + i)).trace =
          writtenFrames s.trace ++ ["data: " ++ TrimRight (rd s.reads).1 ++ "\n\n"]) ∧
      (∀ m,
        (handleLogStreaming rd wr clientID (n + 1 + 61 + m)).ended = true ∧
        (handleLogStreaming rd wr clientID (n + 1 + 61 + m)).reads = s.reads + 61 ∧
        (handleLogStreaming rd wr clientID (n + 1 + 61 + m)).writes = s.writes + 2 ∧
        writtenFrames (handleLogStreaming rd wr clientID (n + 1 + 61 + m)).trace =
          writtenFrames s.trace ++
            ["data: " ++ TrimRight (rd s.reads).1 ++ "\n\n",
             "event: inactivity\ndata: closing connection due to inactivity.\n\n"] ∧
        pullCount (handleLogStreaming rd wr clientID (n + 1 + 61 + m)).trace =
          pullCount s.trace + 61)) ∧
    (∀ k, (handleLogStreaming rd wr clientID k).eofCount ≠ 60 →
      (writtenFrames (handleLogStreaming rd wr clientID (k + 1)).trace).count
          "event: inactivity\ndata: closing connection due to inactivity.\n\n" =
        (writtenFrames (handleLogStreaming rd wr clientID k).trace).count
          "event: inactivity\ndata: closing connection due to inactivity.\n\n") ∧
    (∀ k, (handleLogStreaming rd wr clientID k).ended = false →
      (writtenFrames (handleLogStreaming rd wr clientID k).trace).count
        "event: inactivity\ndata: closing connection due to inactivity.\n\n" = 0) := by
  have base := handleLogStreaming_idle_close rd wr clientID
  have partA : ∀ (n : Nat) (s : Loop),
      handleLogStreaming rd wr clientID n = s → s.ended = false → s.eofCount = 0 →
      (∀ i, i < 60 → (rd (s.reads + i)).2 = some .eof) →
      (∀ i, i ≤ 60 →
        handleLogStreaming rd wr clientID (n + i) =
          { eofCount := i, reads := s.reads + i, writes := s.writes,
            trace := s.trace ++ idleWait i, ended := false } ∧
        writtenFrames (handleLogStreaming rd wr clientID (n + i)).trace
          = writtenFrames s.trace) ∧
      (∀ m,
        (handleLogStreaming rd wr clientID (n + 61 + m)).ended = true ∧
        (handleLogStreaming rd wr clientID (n + 61 + m)).reads = s.reads + 60 ∧
        (handleLogStreaming rd wr clientID (n + 61 + m)).writes = s.writes + 1 ∧
        (wr s.writes = none →
          (handleLogStreaming rd wr clientID (n + 61 + m)).trace =
            s.trace ++ idleWait 60 ++ [.write inactivityFrame none, .flush]) ∧
        (∀ e, wr s.writes = some e →
          (handleLogStreaming rd wr clientID (n + 61 + m)).trace =
            s.trace ++ idleWait 60 ++
              [.write inactivityFrame (some e),
               .log ("unable to notify client " ++ clientID ++ ": " ++ e.text)]) ∧
        writtenFrames (handleLogStreaming rd wr clientID (n + 61 + m)).trace =
          writtenFrames s.trace ++ [inactivityFrame] ∧
        (writtenFrames (handleLogStreaming rd wr clientID (n + 61 + m)).trace).count
          inactivityFrame = 1 ∧
        pullCount (handleLogStreaming rd wr clientID (n + 61 + m)).trace =
          pullCount s.trace + 60) := by
    intro n s hs hrun hzero heof
    obtain ⟨hwait, hclose⟩ := base.1 n s hs hrun hzero heof
    refine ⟨fun i hi => ⟨hwait i hi, ?_⟩, fun m => ?_⟩
    · rw [hwait i hi]
      simp only [writtenFrames_append, writtenFrames_idleWait, List.append_nil]
    · obtain ⟨h1, h2, h3, h4⟩ := hclose m
      refine ⟨by rw [h1], by rw [h1], by rw [h1], fun hw => ?_, fun e hw => ?_, h2, h3, h4⟩
      · rw [h1, hw]; rfl
      · rw [h1, hw]; rfl
  refine ⟨rfl, rfl, partA, fun n s hs hrun hc hp hw heof => ?_, base.2.1, base.2.2⟩
  have hstep : handleLogStreaming rd wr clientID (n + 1) =
      { s with eofCount := 0, reads := s.reads + 1, writes := s.writes + 1,
               trace := s.trace ++
                 [.pull, .write (dataFrame (TrimRight (rd s.reads).1)) none, .flush] } := by
    rw [handleLogStreaming_succ, hs, loopBody_sent _ _ _ s hrun hc hp hw]
  have hfr : writtenFrames (s.trace ++
      [.pull, .write (dataFrame (TrimRight (rd s.reads).1)) none, .flush]) =
      writtenFrames s.trace ++ ["data: " ++ TrimRight (rd s.reads).1 ++ "\n\n"] := by
    rw [writtenFrames_append]; rfl
  have hpc : pullCount (s.trace ++
      [.pull, .write (dataFrame (TrimRight (rd s.reads).1)) none, .flush]) =
      pullCount s.trace + 1 := by
    simp only [pullCount, List.count_append]; rfl
  obtain ⟨hwait, hclose⟩ := partA (n + 1) _ hstep hrun rfl heof
  refine ⟨by rw [hstep], by rw [hstep]; exact hrun, fun i hi => ?_, fun m => ?_⟩
  · obtain ⟨h1, h2⟩ := hwait i hi
    refine ⟨by rw [h1], by rw [h1], ?_⟩
    rw [h2]; exact hfr
  · obtain ⟨h1, h2, h3, _, _, h6, _, h8⟩ := hclose m
    refine ⟨h1, by rw [h2], by rw [h3], ?_, ?_⟩
    · rw [h6, hfr, List.append_assoc]; rfl
    · rw [h8, hpc]

theorem idleThenLine_after (i : Nat) (_ : i < 60) :
    (idleThenLine (5 + 1 + i)).2 = some .eof := by
  rw [idleThenLine, if_neg (by omega)]

theorem idle_timeout_closes_witness :
    (writtenFrames (handleLogStreaming (fun _ => ("", some .eof)) (fun _ => none) "u1"
        (0 + 61 + 0)).trace =
      [] ++ ["event: inactivity\ndata: closing connection due to inactivity.\n\n"] ∧
     (handleLogStreaming (fun _ => ("", some .eof)) (fun _ => none) "u1"
        (0 + 61 + 0)).ended = true) ∧
    (writtenFrames (handleLogStreaming idleThenLine (fun _ => none) "u1"
        (5 + 1 + 61 + 0)).trace =
      ["data: line\n\n", "event: inactivity\ndata: closing connection due to inactivity.\n\n"] ∧
     (handleLogStreaming idleThenLine (fun _ => none) "u1" (5 + 1 + 61 + 0)).ended = true ∧
     (handleLogStreaming idleThenLine (fun _ => none) "u1" (5 + 1 + 60)).ended = false) :=
  ⟨⟨(((idle_timeout_closes (fun _ => ("", some .eof)) (fun _ => none) "u1").2.2.1 0 Loop.init
        rfl rfl rfl (fun _ _ => rfl)).2 0).2.2.2.2.2.1,
    (((idle_timeout_closes (fun _ => ("", some .eof)) (fun _ => none) "u1").2.2.1 0 Loop.init
        rfl rfl rfl (fun _ _ => rfl)).2 0).1⟩,
   ⟨(((idle_timeout_closes idleThenLine (fun _ => none) "u1").2.2.2.1 5
        { eofCount := 5, reads := 5, writes := 0, trace := idleWait 5, ended := false }
        (by decide) rfl (by decide) rfl rfl idleThenLine_after).2.2.2 0).2.2.2.1,
    (((idle_timeout_closes idleThenLine (fun _ => none) "u1").2.2.2.1 5
        { eofCount := 5, reads := 5, writes := 0, trace := idleWait 5, ended := false }
        (by decide) rfl (by decide) rfl rfl idleThenLine_after).2.2.2 0).1,
    ((idle_timeout_closes idleThenLine (fun _ => none) "u1").2.2.2.1 5
        { eofCount := 5, reads := 5, writes := 0, trace := idleWait 5, ended := false }
        (by decide) rfl (by decide) rfl rfl idleThenLine_after).2.2.1 60 (by decide) |>.2.1⟩⟩

/-! ## A line that becomes readable in two parts -/

set_option maxRecDepth 100000 in
/-- Claim C1, on the code: the producer appends the one line `abc`; the first
pull finds `ab` without a newline and returns it together with `io.EOF`, and the
session drops it; the second pull returns the rest, and the only data frame the
client ever gets is `data: c`, not `data: abc`: the session then ends by
inactivity, all writes having succeeded. -/
theorem handleLogStreaming_cut_line_lost (m : Nat) :
    cutAppends 0 ++ cutAppends 1 = "abc\n" ∧
    filePulls cutAppends 0 = ("ab", some .eof) ∧
    filePulls cutAppends 1 = ("c\n", none) ∧
    (handleLogStreaming (filePulls cutAppends) (fun _ => none) "u1" 2).trace =
      [.pull, .sleep 400, .pull, .write (dataFrame "c") none, .flush] ∧
    (handleLogStreaming (filePulls cutAppends) (fun _ => none) "u1" (63 + m)).ended = true ∧
    writtenFrames (handleLogStreaming (filePulls cutAppends) (fun _ => none) "u1" (63 + m)).trace
      = ["data: c\n\n", inactivityFrame] ∧
    dataFrame "abc" ∉
      writtenFrames (handleLogStreaming (filePulls cutAppends) (fun _ => none) "u1" (63 + m)).trace := by
  have h63 : (handleLogStreaming (filePulls cutAppends) (fun _ => none) "u1" 63).ended = true ∧
      writtenFrames (handleLogStreaming (filePulls cutAppends) (fun _ => none) "u1" 63).trace
        = ["data: c\n\n", inactivityFrame] := by
    decide
  rw [handleLogStreaming_stays_ended _ _ _ 63 m h63.1]
  refine ⟨by decide, by decide, by decide, by decide, h63.1, h63.2, ?_⟩
  rw [h63.2]
  decide

/-! ## A log that grows by whole lines -/

theorem tailFile_eq (appends : Nat → String) (r : Nat) :
    tailFile appends r = ReadString (unreadAfter appends r ++ appends r) := by
  cases r <;> rfl

theorem WholeLines.append {a b : String} (ha : WholeLines a) (hb : WholeLines b) :
    WholeLines (a ++ b) := by
  intro ch h
  rw [String.data_append, List.getLast?_append] at h
  cases hl : b.data.getLast? with
  | none => rw [hl] at h; exact ha ch (by simpa using h)
  | some d => rw [hl] at h; simp at h; exact hb ch (by rw [hl, h])

theorem unlines_concat (ls : List String) (line : String) :
    unlines (ls ++ [line]) = unlines ls ++ (line ++ "\n") := by
  induction ls with
  | nil => simp [unlines]
  | cons a t ih =>
    show a ++ "\n" ++ unlines (t ++ [line]) = a ++ "\n" ++ unlines t ++ (line ++ "\n")
    rw [ih, String.append_assoc (a ++ "\n")]

theorem TrimRight_line (pre : List Char) (h : '\n' ∉ pre) :
    TrimRight (⟨pre⟩ ++ "\n") = ⟨pre⟩ := by
  have hd : ((⟨pre⟩ : String) ++ "\n").data = pre ++ ['\n'] := rfl
  unfold TrimRight
  rw [hd, List.rdropWhile_concat_pos _ _ _ (by simp)]
  congr 1
  rw [List.rdropWhile_eq_self_iff]
  intro hl hp
  have hmem := List.getLast_mem hl
  have : pre.getLast hl = '\n' := by simpa using hp
  exact h (this ▸ hmem)

/-- On a text of whole lines `ReadString` either finds nothing and returns the
empty text with `io.EOF`, or returns the first line with its newline. -/
theorem ReadString_wholeLines (u : String) (h : WholeLines u) :
    (u = "" ∧ ReadString u = (("", some .eof), "")) ∨
    (∃ pre rest : List Char, '\n' ∉ pre ∧ u = ⟨pre⟩ ++ "\n" ++ ⟨rest⟩ ∧
      ReadString u = ((⟨pre⟩ ++ "\n", none), ⟨rest⟩) ∧ WholeLines ⟨rest⟩) := by
  have hsplit := List.takeWhile_append_dropWhile (fun ch => ch != '\n') u.data
  cases hd : List.dropWhile (fun ch => ch != '\n') u.data with
  | nil =>
    left
    have hall : ∀ x ∈ u.data, (x != '\n') = true := List.dropWhile_eq_nil_iff.mp hd
    have hnil : u.data = [] := by
      cases hl : u.data.getLast? with
      | none => exact List.getLast?_eq_none_iff.mp hl
      | some ch =>
        have h1 := h ch hl
        have h2 := hall ch (List.mem_of_getLast?_eq_some hl)
        rw [h1] at h2
        simp at h2
    have hu : u = "" := String.ext hnil
    subst hu
    exact ⟨rfl, rfl⟩
  | cons c rest =>
    right
    have hc : c = '\n' := by
      have := List.head_dropWhile_not (fun ch => ch != '\n') u.data (by rw [hd]; simp)
      simpa [hd] using this
    subst hc
    rw [hd] at hsplit
    refine ⟨List.takeWhile (fun ch => ch != '\n') u.data, rest, ?_, ?_, ?_, ?_⟩
    · intro hm
      have := List.mem_takeWhile_imp hm
      simp at this
    · apply String.ext
      simp only [String.data_append]
      simpa using hsplit.symm
    · simp only [ReadString, List.span_eq_take_drop, hd]
      rfl
    · intro ch hch
      apply h ch
      rw [← hsplit, List.getLast?_append]
      cases rest with
      | nil => simp at hch
      | cons a t =>
        rw [List.getLast?_cons_cons]
        have hch' : (a :: t).getLast? = some ch := hch
        rw [hch']
        rfl

/-- When the log grows by whole lines and every write succeeds, the data frames
written after any number of iterations are the frames of the lines that make up
the consumed part of the log, in order and one frame per line, followed by the
inactivity frame when the session has ended; what was not sent is still
unconsumed. -/
theorem handleLogStreaming_whole_lines (appends : Nat → String) (clientID : String)
    (hA : ∀ i, WholeLines (appends i)) (n : Nat) :
    WholeLines (unreadAfter appends
      (handleLogStreaming (filePulls appends) (fun _ => none) clientID n).reads) ∧
    ∃ ls : List String, (∀ l ∈ ls, '\n' ∉ l.data) ∧
      writtenFrames (handleLogStreaming (filePulls appends) (fun _ => none) clientID n).trace =
        ls.map dataFrame ++
          (if (handleLogStreaming (filePulls appends) (fun _ => none) clientID n).ended
            then [inactivityFrame] else []) ∧
      unlines ls ++ unreadAfter appends
          (handleLogStreaming (filePulls appends) (fun _ => none) clientID n).reads =
        appended appends
          (handleLogStreaming (filePulls appends) (fun _ => none) clientID n).reads := by
  induction n with
  | zero =>
    refine ⟨fun ch h => by simp [unreadAfter, handleLogStreaming_zero, Loop.init] at h,
      [], by simp, rfl, rfl⟩
  | succ n ih =>
    rw [handleLogStreaming_succ]
    generalize handleLogStreaming (filePulls appends) (fun _ => none) clientID n = s at ih ⊢
    obtain ⟨hwl, ls, hls, hfr, hcat⟩ := ih
    cases he : s.ended with
    | true =>
      rw [loopBody_ended _ _ _ s he]
      exact ⟨hwl, ls, hls, by rw [hfr, he], hcat⟩
    | false =>
      rw [he] at hfr
      simp only [Bool.false_eq_true, if_false, List.append_nil] at hfr
      by_cases hc : s.eofCount = logIdleTimeout
      · rw [loopBody_idle _ _ _ s he hc, hc, checkForInactivity_idle]
        refine ⟨hwl, ls, hls, ?_, hcat⟩
        simp only [writtenFrames_append, writtenFrames_idleClose, hfr, if_true]
      · have hread := tailFile_eq appends s.reads
        have hwl' := hwl.append (hA s.reads)
        rcases ReadString_wholeLines _ hwl' with ⟨hempty, hrs⟩ | ⟨pre, rest, hpre, hu, hrs, hrest⟩
        · rw [hrs] at hread
          have hp : (filePulls appends s.reads).2 = some .eof := by
            simp [filePulls, hread]
          rw [loopBody_eof _ _ _ s he hc hp]
          have hun : unreadAfter appends (s.reads + 1) = "" := by
            simp [unreadAfter, hread]
          refine ⟨by rw [hun]; intro ch h; simp at h, ls, hls, ?_, ?_⟩
          · simp only [writtenFrames_append, hfr, he]
            simp [writtenFrames]
          · show unlines ls ++ unreadAfter appends (s.reads + 1) = appended appends (s.reads + 1)
            rw [hun, appended, ← hcat, String.append_assoc, hempty]
        · rw [hrs] at hread
          have hp : (filePulls appends s.reads).2 = none := by
            simp [filePulls, hread]
          have hline : (filePulls appends s.reads).1 = ⟨pre⟩ ++ "\n" := by
            simp [filePulls, hread]
          rw [loopBody_sent _ _ _ s he hc hp rfl, hline, TrimRight_line pre hpre]
          have hun : unreadAfter appends (s.reads + 1) = ⟨rest⟩ := by
            simp [unreadAfter, hread]
          refine ⟨by rw [hun]; exact hrest, ls ++ [⟨pre⟩], ?_, ?_, ?_⟩
          · intro l hl
            rcases List.mem_append.mp hl with h1 | h1
            · exact hls l h1
            · simp at h1; subst h1; exact hpre
          · simp only [writtenFrames_append, hfr, List.map_append]
            simp [writtenFrames, he]
          · show unlines (ls ++ [⟨pre⟩]) ++ unreadAfter appends (s.reads + 1)
              = appended appends (s.reads + 1)
            rw [hun, appended, ← hcat, unlines_concat,
              String.append_assoc (unlines ls) (unreadAfter appends s.reads), hu]
            simp only [String.append_assoc]

theorem handleLogStreaming_whole_lines_witness :
    ∃ ls : List String, (∀ l ∈ ls, '\n' ∉ l.data) ∧
      writtenFrames (handleLogStreaming (filePulls twoLines) (fun _ => none) "u1" 2).trace =
        ls.map dataFrame ++
          (if (handleLogStreaming (filePulls twoLines) (fun _ => none) "u1" 2).ended
            then [inactivityFrame] else []) ∧
      unlines ls ++ unreadAfter twoLines
          (handleLogStreaming (filePulls twoLines) (fun _ => none) "u1" 2).reads =
        appended twoLines (handleLogStreaming (filePulls twoLines) (fun _ => none) "u1" 2).reads :=
  (handleLogStreaming_whole_lines twoLines "u1"
    (fun i => by
      cases i with
      | zero => intro ch h; simp [twoLines] at h; exact h.symm
      | succ j => intro ch h; simp [twoLines] at h) 2).2

end SSE
